import Mathlib

/-!
Verification of the telegram_homework_bot repository.

This file shallowly embeds the order-lifecycle core of the bot
(`database.py`, `handlers.py`, `keyboards.py`) and proves properties of the
embedded definitions.

Modelling conventions:
* SQLite rows become Lean structures; `NULL`-able columns become `Option`.
* The `orders` table is a `List OrderRecord`; SQL `UPDATE ... WHERE order_id = ?`
  becomes a `List.map` that rewrites the matching rows, exactly mirroring the
  `SET` clauses (including `COALESCE`).
* `CURRENT_TIMESTAMP` is modelled by an explicit `now : Nat` argument.
* Python strings are Lean `String`s; `str.strip`, `str.replace(",", ".")` and
  `str.isdigit` are re-implemented character by character (ASCII fragment).
* Each async handler becomes a pure function from its inputs and the state it
  reads to the updated state plus a list of `Effect`s (messages sent through
  the transport).  Segments between `await` points are atomic; interleavings
  of different handlers are modelled by composing the segments explicitly.
-/

/-! ## Python string primitives used by the handlers -/

/-- Whitespace recognised by Python `str.strip` (ASCII fragment). -/
def isPySpace (c : Char) : Bool :=
  c = ' ' || c = '\t' || c = '\n' || c = '\x0d' || c = Char.ofNat 11 || c = Char.ofNat 12

/-- Python `s.strip()`: drop leading and trailing whitespace. -/
def pyStrip (s : String) : String :=
  String.mk (((s.toList.dropWhile isPySpace).reverse.dropWhile isPySpace).reverse)

/-- Python `s.replace(",", ".")`: rewrite every comma to a period. -/
def replaceCommaWithDot (s : String) : String :=
  String.mk (s.toList.map (fun c => if c = ',' then '.' else c))

/-- ASCII decimal digit, the `\d` class of `BUDGET_PATTERN` (ASCII fragment). -/
def isAsciiDigit (c : Char) : Bool :=
  '0' ≤ c && c ≤ '9'

/-- Python `s.isdigit()` (ASCII fragment): non-empty and all digits. -/
def pyIsDigit (s : String) : Bool :=
  s ≠ "" && s.toList.all isAsciiDigit

/-- Python `int(s)` on a digit string. -/
def pyIntOfDigits (s : String) : Int :=
  (s.toNat?.getD 0 : Nat)

/-- `BUDGET_PATTERN = re.compile(r"^\d+([.,]\d+)?$")` together with `re.match`
anchored at both ends: one or more digits, optionally followed by a period or
comma and one or more digits.  (`[.,]` cannot match a digit, so the greedy
scan of the leading digit block is exact.) -/
def budgetPatternMatch (s : String) : Bool :=
  let cs := s.toList
  let ds := cs.takeWhile isAsciiDigit
  let rest := cs.dropWhile isAsciiDigit
  decide (ds ≠ []) &&
    match rest with
    | [] => true
    | c :: rest2 => (c = '.' || c = ',') && decide (rest2 ≠ []) && rest2.all isAsciiDigit

/-! ## Data model (`database.py`) -/

/-- Row of the `orders` table (dataclass `OrderRecord` in `database.py`).
Timestamps are clock values (`Nat`). -/
structure OrderRecord where
  order_id : Nat
  user_id : Int
  username : Option String
  first_name : Option String
  last_name : Option String
  order_type : String
  subject : String
  description : String
  file_id : Option String
  file_type : Option String
  additional_info : Option String
  deadline : Option String
  budget : String
  status : String
  executor_id : Option Int
  executor_username : Option String
  group_message_id : Option Nat
  decline_reason : Option String
  payment_status : Option String
  payment_receipt_file_id : Option String
  payment_receipt_type : Option String
  payment_submitted_at : Option Nat
  payment_reviewed_by : Option Int
  payment_reviewed_at : Option Nat
  payment_notes : Option String
  completed_at : Option Nat
  deriving Repr, DecidableEq

/-- The `orders` table. -/
abbrev Db := List OrderRecord

/-- SQL `COALESCE(?, column)`: the bound parameter if non-NULL, else the
current column value. -/
def coalesce {α : Type} (p old : Option α) : Option α :=
  match p with
  | some v => some v
  | none => old

/-- `Database.get_order`: point lookup by `order_id`. -/
def get_order (db : Db) (oid : Nat) : Option OrderRecord :=
  db.find? (fun o => o.order_id = oid)

/-- `Database.update_order_status`: `UPDATE orders SET status = ?,
executor_id = COALESCE(?, executor_id), executor_username =
COALESCE(?, executor_username), decline_reason = COALESCE(?, decline_reason)
WHERE order_id = ?`.  Note the `WHERE` clause is keyed on `order_id` only:
the write is unconditional in the prior status. -/
def update_order_status (db : Db) (oid : Nat) (status : String)
    (executor_id : Option Int := none) (executor_username : Option String := none)
    (decline_reason : Option String := none) : Db :=
  db.map (fun o =>
    if o.order_id = oid then
      { o with
        status := status
        executor_id := coalesce executor_id o.executor_id
        executor_username := coalesce executor_username o.executor_username
        decline_reason := coalesce decline_reason o.decline_reason }
    else o)

/-- `Database.update_payment_status`: sets `payment_status`, coalesces the
reviewer, stamps `payment_reviewed_at` only when a reviewer is given, and
coalesces the notes; `WHERE order_id = ?`. -/
def update_payment_status (db : Db) (oid : Nat) (status : String)
    (reviewer_id : Option Int) (notes : Option String) (now : Nat) : Db :=
  db.map (fun o =>
    if o.order_id = oid then
      { o with
        payment_status := some status
        payment_reviewed_by := coalesce reviewer_id o.payment_reviewed_by
        payment_reviewed_at :=
          match reviewer_id with
          | none => o.payment_reviewed_at
          | some _ => some now
        payment_notes := coalesce notes o.payment_notes }
    else o)

/-- `Database.save_payment_receipt`: stores the receipt and marks
`payment_status = 'submitted'`; `WHERE order_id = ? AND user_id = ?`. -/
def save_payment_receipt (db : Db) (oid : Nat) (file_id file_type : String)
    (submitted_by : Int) (now : Nat) : Db :=
  db.map (fun o =>
    if o.order_id = oid ∧ o.user_id = submitted_by then
      { o with
        payment_status := some "submitted"
        payment_receipt_file_id := some file_id
        payment_receipt_type := some file_type
        payment_submitted_at := some now }
    else o)

/-- `Database.mark_order_completed`: `UPDATE orders SET status = 'completed',
completed_at = CURRENT_TIMESTAMP WHERE order_id = ?`.  No guard on the prior
status: re-completing refreshes `completed_at`. -/
def mark_order_completed (db : Db) (oid : Nat) (now : Nat) : Db :=
  db.map (fun o =>
    if o.order_id = oid then
      { o with status := "completed", completed_at := some now }
    else o)

/-- A freshly inserted order row: `Database.create_order` inserts the intake
fields and the schema supplies `status DEFAULT 'pending'` and
`payment_status DEFAULT 'not_requested'`; every other column starts NULL. -/
def newOrder (oid : Nat) (user_id : Int)
    (username first_name last_name : Option String)
    (order_type subject description : String)
    (file_id file_type additional_info deadline : Option String)
    (budget : String) : OrderRecord :=
  { order_id := oid
    user_id := user_id
    username := username
    first_name := first_name
    last_name := last_name
    order_type := order_type
    subject := subject
    description := description
    file_id := file_id
    file_type := file_type
    additional_info := additional_info
    deadline := deadline
    budget := budget
    status := "pending"
    executor_id := none
    executor_username := none
    group_message_id := none
    decline_reason := none
    payment_status := some "not_requested"
    payment_receipt_file_id := none
    payment_receipt_type := none
    payment_submitted_at := none
    payment_reviewed_by := none
    payment_reviewed_at := none
    payment_notes := none
    completed_at := none }

/-! ## Transport effects

Messages the handlers send through the Telegram transport.  Texts are carried
where a claim inspects them; group-message edits carry only the target id
(their body is presentation-only formatting of the order card). -/

inductive Effect where
  | callbackAlert (text : String)
  | callbackAnswer (text : String)
  | replyText (text : String)
  | editQueryMessage (text : String)
  | sendUser (user_id : Int) (text : String)
  | sendGroup (text : String)
  | editGroupMessage (message_id : Nat)
  | removeButtons (message_id : Nat)
  | editReviewMessage
  | paymentRequest (user_id : Int) (order_id : Nat)
  | promptDeclineReason (message_id : Nat)
  | forwardReceipt (file_id : String)
  deriving Repr, DecidableEq

/-! ## User-facing message constants (`handlers.py`) -/

def ORDER_ALREADY_PROCESSED_MESSAGE : String := "Этот заказ уже обработан."

def ORDER_NOT_FOUND_MESSAGE : String := "Заказ не найден."

def DECLINE_REASON_REQUIRED_MESSAGE : String :=
  "Причина обязательна для отклонения заказа. Пожалуйста, ответьте на запрос."

def ERROR_INVALID_BUDGET : String := "Пожалуйста, укажите бюджет числом. Попробуйте ещё раз."

def PAYMENT_RECEIPT_RECEIVED : String :=
  "Спасибо! Мы отправили квитанцию на проверку. О результате сообщим дополнительно."

def ORDER_ACCEPTED_USER_MESSAGE (order_id : Nat) : String :=
  "✅ Ваш заказ #" ++ toString order_id ++ " принят в работу! Исполнитель свяжется с вами."

def ORDER_DECLINED_USER_MESSAGE (order_id : Nat) (reason : String) : String :=
  "❌ Ваш заказ #" ++ toString order_id ++ " отклонен.\n\nПричина: " ++ reason ++
    "\n\nВы можете создать новый заказ с учетом замечаний. Нажмите /start"

def PAYMENT_APPROVED_USER_MESSAGE (order_id : Nat) : String :=
  "✅ Оплата по заказу #" ++ toString order_id ++ " подтверждена. Работа начнётся в ближайшее время."

def PAYMENT_REJECTED_USER_MESSAGE (order_id : Nat) : String :=
  "❌ Оплата по заказу #" ++ toString order_id ++
    " не подтверждена. Пожалуйста, проверьте данные и загрузите квитанцию повторно."

def ORDER_COMPLETED_USER_MESSAGE (order_id : Nat) : String :=
  "✅ Ваш заказ #" ++ toString order_id ++ " отмечен как выполненный. Спасибо, что воспользовались ботом!"

def ORDER_COMPLETED_GROUP_MESSAGE (order_id : Nat) : String :=
  "✅ Заказ #" ++ toString order_id ++ " отмечен как выполненный администратором."

/-! ## Intake conversation (`handlers.py`)

`CHOOSING_TYPE, ..., CONFIRMING = range(7)` and the parallel `STATE_NAMES`
lookup table. -/

def CHOOSING_TYPE : Nat := 0

def ENTERING_SUBJECT : Nat := 1

def ENTERING_DESCRIPTION : Nat := 2

def ENTERING_ADDITIONAL : Nat := 3

def ENTERING_DEADLINE : Nat := 4

def ENTERING_BUDGET : Nat := 5

def CONFIRMING : Nat := 6

/-- `STATE_NAMES`: step number to persisted state name (`dict.get`). -/
def STATE_NAMES (s : Nat) : Option String :=
  if s = CHOOSING_TYPE then some "CHOOSING_TYPE"
  else if s = ENTERING_SUBJECT then some "ENTERING_SUBJECT"
  else if s = ENTERING_DESCRIPTION then some "ENTERING_DESCRIPTION"
  else if s = ENTERING_ADDITIONAL then some "ENTERING_ADDITIONAL"
  else if s = ENTERING_DEADLINE then some "ENTERING_DEADLINE"
  else if s = ENTERING_BUDGET then some "ENTERING_BUDGET"
  else if s = CONFIRMING then some "CONFIRMING"
  else none

/-- `context.user_data` for one requester: a dict whose keys are fixed by the
intake handlers; absent keys are `none`. -/
structure UserData where
  user_id : Int
  username : Option String
  first_name : Option String
  last_name : Option String
  order_type : Option String
  order_type_label : Option String
  subject : Option String
  description : Option String
  file_id : Option String
  file_type : Option String
  additional_info : Option String
  deadline : Option String
  budget : Option String
  deriving Repr, DecidableEq

/-- The `user_states` row for one requester: `none` when no row exists,
otherwise the persisted `(state, data)` pair
(`Database.set_user_state` / `clear_user_state` / `get_user_state`). -/
abbrev UserStates := Option (Option String × UserData)

/-- `_persist_state`: `set_user_state(user, STATE_NAMES.get(state), data)` —
an upsert, so the previous row is irrelevant. -/
def persist_state (state : Nat) (d : UserData) : UserStates :=
  some (STATE_NAMES state, d)

def CONFIRMATION_MESSAGE_TITLE : String := "Проверьте, всё ли верно:"

/-- The confirmation summary assembled by `handle_budget` (required keys are
present at this step; `KeyError` on absent required keys is not modelled). -/
def orderSummary (ud : UserData) : String :=
  CONFIRMATION_MESSAGE_TITLE ++ "\n\n" ++
  "📋 Тип: " ++ ud.order_type_label.getD "" ++ "\n" ++
  "📚 Предмет: " ++ ud.subject.getD "" ++ "\n" ++
  "📄 Описание: " ++ ud.description.getD "" ++ "\n" ++
  "💡 Доп. информация: " ++ ud.additional_info.getD "—" ++ "\n" ++
  "⏰ Дедлайн: " ++ ud.deadline.getD "—" ++ "\n" ++
  "💰 Бюджет: " ++ ud.budget.getD ""

/-- `handle_budget`: strips the text, rewrites commas to periods, matches
`BUDGET_PATTERN`; on failure re-prompts and stays at `ENTERING_BUDGET`
without touching the draft or the persisted state; on success stores the
normalized budget, shows the summary and persists `CONFIRMING`.
The result is (returned conversation state, user_data, user_states row,
sent effects).  The `if not message.text` falsy guard is the `text = ""`
case (the handler is registered under `filters.TEXT`). -/
def handle_budget (text : String) (ud : UserData) (ps : UserStates) :
    Nat × UserData × UserStates × List Effect :=
  if text = "" then (ENTERING_BUDGET, ud, ps, [])
  else
    let budget_raw := replaceCommaWithDot (pyStrip text)
    if budgetPatternMatch budget_raw then
      let ud' := { ud with budget := some budget_raw }
      (CONFIRMING, ud', persist_state CONFIRMING ud',
        [Effect.replyText (orderSummary ud')])
    else (ENTERING_BUDGET, ud, ps, [Effect.replyText ERROR_INVALID_BUDGET])

/-- The budget acceptance condition exactly as claim C7 words it: the input
with the comma decimal separator rewritten to a period matches
`^\d+(\.\d+)?$` (claim-side definition, for comparison with the code). -/
def claimBudgetAccepts (s : String) : Bool :=
  budgetPatternMatch (replaceCommaWithDot s)

/-- Sample collected draft data, as it stands at the budget step. -/
def sampleDraft : UserData :=
  { user_id := 100
    username := some "student"
    first_name := some "Иван"
    last_name := none
    order_type := some "homework"
    order_type_label := some "Домашнее задание"
    subject := some "Математика"
    description := some "Решить задачи"
    file_id := none
    file_type := none
    additional_info := some "нет"
    deadline := some "нет"
    budget := none }

/-! ## Order lifecycle handlers (`handlers.py`) -/

/-- The pressing Telegram user (`query.from_user`): id, optional username and
the always-present display name. -/
structure Executor where
  id : Int
  username : Option String
  full_name : String
  deriving Repr, DecidableEq

def ADMIN_ONLY_MESSAGE : String := "🚫 <b>Доступ запрещен</b>\n\nУ вас нет прав администратора."

def DECLINE_REASON_TAKEN (username : String) (order_id : Nat) (budget : String) : String :=
  "✅ @" ++ username ++ " взял(а) на себя выполнение заказа #" ++ toString order_id ++
    " (Бюджет: " ++ budget ++ ")"

def PAYMENT_RECEIPT_PROMPT (order_id : Nat) : String :=
  "Отправьте квитанцию или скриншот оплаты для заказа #" ++ toString order_id ++
    ". Можно прикрепить фото, документ или видео."

/-- An entry of the in-memory `DECLINE_REASON_WAITLIST` dict. -/
structure DeclinePayload where
  order_id : Nat
  executor_id : Int
  deriving Repr, DecidableEq

/-- `DECLINE_REASON_WAITLIST`: prompt-message id keyed map, as an association
list (insertion by append after removing stale entries, exactly as the
handler does). -/
abbrev Waitlist := List (Nat × DeclinePayload)

/-- The status guard of `handle_order_accept`:
`order.status not in ("pending", "awaiting_decline_reason")` refuses the
claim.  Reading the order and checking the guard is one atomic segment (no
`await` separates the check from the read); `none` means the order does not
exist. -/
def accept_guard (db : Db) (oid : Nat) : Option Bool :=
  (get_order db oid).map
    (fun o => o.status = "pending" ∨ o.status = "awaiting_decline_reason")

/-- The write segment of `handle_order_accept`: `update_order_status(...,
"awaiting_payment", executor...)` followed by
`update_payment_status(..., "requested")`.  Both writes are keyed on
`order_id` only — they do not re-check the status read by the guard. -/
def accept_commit (db : Db) (oid : Nat) (ex : Executor) : Db :=
  update_payment_status
    (update_order_status db oid "awaiting_payment" (some ex.id) ex.username none)
    oid "requested" none none 0

/-- `handle_order_accept`: look the order up, refuse with the
"already processed" alert unless status ∈ {pending, awaiting_decline_reason},
otherwise run the writes and notify (group card edit, requester notice,
payment request, group notice).  `qmid` is `query.message.message_id`. -/
def handle_order_accept (db : Db) (oid : Nat) (ex : Executor) (qmid : Nat) :
    Db × List Effect :=
  match get_order db oid with
  | none => (db, [Effect.editQueryMessage ORDER_NOT_FOUND_MESSAGE])
  | some order =>
    if ¬ (order.status = "pending" ∨ order.status = "awaiting_decline_reason") then
      (db, [Effect.callbackAlert ORDER_ALREADY_PROCESSED_MESSAGE])
    else
      (accept_commit db oid ex,
        [Effect.editGroupMessage qmid,
          Effect.sendUser order.user_id (ORDER_ACCEPTED_USER_MESSAGE oid),
          Effect.paymentRequest order.user_id oid,
          Effect.sendGroup
            ((DECLINE_REASON_TAKEN (ex.username.getD ex.full_name) oid order.budget) ++
              "\n💳 Ожидаем квитанцию от студента.")])

/-- `handle_order_decline`: only from `pending`; records the provisional
decliner, invalidates stale waitlist entries for the order, inserts the new
correlation keyed by the prompt message id, removes the claim buttons. -/
def handle_order_decline (db : Db) (wl : Waitlist) (oid : Nat) (ex : Executor)
    (qmid prompt_mid : Nat) : Db × Waitlist × List Effect :=
  match get_order db oid with
  | none => (db, wl, [Effect.editQueryMessage ORDER_NOT_FOUND_MESSAGE])
  | some order =>
    if order.status = "pending" then
      let db1 := update_order_status db oid "awaiting_decline_reason"
        (some ex.id) ex.username none
      let wl1 := (wl.filter (fun e => ¬ e.2.order_id = oid)) ++
        [(prompt_mid, ⟨oid, ex.id⟩)]
      (db1, wl1,
        [Effect.removeButtons qmid, Effect.editGroupMessage qmid,
          Effect.promptDeclineReason prompt_mid,
          Effect.callbackAnswer "Пожалуйста, укажите причину отклонения ответом на сообщение."])
    else (db, wl, [Effect.callbackAlert ORDER_ALREADY_PROCESSED_MESSAGE])

/-- `handle_decline_reason_message`: correlate the reply with the waitlist
entry of the replied-to prompt; a different sender than the recorded decliner
or an empty (after stripping) text is rejected with the "reason required"
notice and nothing changes; otherwise the order is declined with the stripped
reason and the correlation entry is consumed.  `text = none` is a non-text
reply. -/
def handle_decline_reason_message (db : Db) (wl : Waitlist) (reply_id : Nat)
    (sender : Int) (text : Option String) : Db × Waitlist × List Effect :=
  match (wl.find? (fun e => e.1 = reply_id)).map (fun e => e.2) with
  | none => (db, wl, [])
  | some payload =>
    if ¬ sender = payload.executor_id then
      (db, wl, [Effect.replyText DECLINE_REASON_REQUIRED_MESSAGE])
    else
      let reason_text := match text with
        | some t => pyStrip t
        | none => ""
      if reason_text = "" then
        (db, wl, [Effect.replyText DECLINE_REASON_REQUIRED_MESSAGE])
      else
        match get_order db payload.order_id with
        | none => (db, wl, [Effect.replyText ORDER_NOT_FOUND_MESSAGE])
        | some order =>
          (update_order_status db payload.order_id "declined" none none (some reason_text),
            wl.filter (fun e => ¬ e.1 = reply_id),
            [Effect.editGroupMessage (order.group_message_id.getD 0),
              Effect.sendUser order.user_id
                (ORDER_DECLINED_USER_MESSAGE payload.order_id reason_text)])

/-! ## Payment sub-workflow handlers (`handlers.py`) -/

/-- `handle_payment_upload_request`: the "submit receipt" button.  Checks
ownership and that the status is `awaiting_payment` or `payment_review`, and
only then arms `context.user_data[PAYMENT_UPLOAD_ORDER_KEY]`.  Returns the
new value of that key plus effects. -/
def handle_payment_upload_request (db : Db) (upload_key : Option Nat)
    (oid : Nat) (user : Int) : Option Nat × List Effect :=
  match get_order db oid with
  | none => (upload_key, [Effect.callbackAlert "Этот заказ вам не принадлежит."])
  | some order =>
    if ¬ order.user_id = user then
      (upload_key, [Effect.callbackAlert "Этот заказ вам не принадлежит."])
    else if ¬ (order.status = "awaiting_payment" ∨ order.status = "payment_review") then
      (upload_key, [Effect.callbackAlert "По этому заказу не требуется квитанция."])
    else (some oid, [Effect.replyText (PAYMENT_RECEIPT_PROMPT oid)])

/-- `handle_payment_receipt_submission`: accepts an attachment whenever the
upload key is armed and the order belongs to the sender — the order status is
NOT re-checked here.  Stores the receipt, forces status to
`payment_review` and `payment_status` to `submitted`, disarms the key and
posts the review prompt to the group.  `file` is `(file_id, file_type)`.
(`if not order_id` is Python falsiness: absent key or key `0`.) -/
def handle_payment_receipt_submission (db : Db) (upload_key : Option Nat)
    (user : Int) (file : Option (String × String)) (now : Nat) :
    Db × Option Nat × List Effect :=
  match upload_key with
  | none => (db, upload_key, [])
  | some oid =>
    if oid = 0 then (db, upload_key, [])
    else
      match file with
      | none => (db, upload_key, [Effect.replyText "Прикрепите файл или фото квитанции."])
      | some (fid, ftype) =>
        match get_order db oid with
        | none =>
          (db, none, [Effect.replyText "Не удалось сопоставить заказ. Нажмите кнопку ещё раз."])
        | some order =>
          if ¬ order.user_id = user then
            (db, none, [Effect.replyText "Не удалось сопоставить заказ. Нажмите кнопку ещё раз."])
          else
            (update_payment_status
                (update_order_status
                  (save_payment_receipt db oid fid ftype user now)
                  oid "payment_review" none none none)
                oid "submitted" none none now,
              none,
              [Effect.replyText PAYMENT_RECEIPT_RECEIVED,
                Effect.forwardReceipt fid,
                Effect.sendGroup ("Проверьте оплату заказа #" ++ toString oid ++
                  ". Если деньги поступили, подтвердите квитанцию.")])

/-- `handle_payment_review_callback`: admin-only review of a submitted
receipt.  Approve: `payment_status = confirmed`, `status = in_progress`.
Reject: `payment_status = rejected`, `status = awaiting_payment` and a fresh
payment request is re-sent to the requester. -/
def handle_payment_review_callback (db : Db) (oid : Nat) (approve : Bool)
    (reviewer : Int) (is_admin : Bool) (now : Nat) : Db × List Effect :=
  if ¬ is_admin then (db, [Effect.callbackAlert ADMIN_ONLY_MESSAGE])
  else
    match get_order db oid with
    | none => (db, [Effect.callbackAlert ORDER_NOT_FOUND_MESSAGE])
    | some order =>
      if approve then
        (update_order_status
            (update_payment_status db oid "confirmed" (some reviewer) none now)
            oid "in_progress" none none none,
          [Effect.editReviewMessage,
            Effect.sendUser order.user_id (PAYMENT_APPROVED_USER_MESSAGE oid),
            Effect.sendGroup ("Статус оплаты заказа #" ++ toString oid ++
              ": ✅ Оплата подтверждена администратором.")])
      else
        (update_order_status
            (update_payment_status db oid "rejected" (some reviewer) none now)
            oid "awaiting_payment" none none none,
          [Effect.paymentRequest order.user_id oid,
            Effect.editReviewMessage,
            Effect.sendUser order.user_id (PAYMENT_REJECTED_USER_MESSAGE oid),
            Effect.sendGroup ("Статус оплаты заказа #" ++ toString oid ++
              ": ❌ Оплата не подтверждена. Требуется новая квитанция.")])

/-- The `admin_complete:` branch of `handle_admin_manage_callback`: after the
admin check and the existence check it calls `mark_order_completed`
unconditionally — there is no "already processed" path — then edits the group
card (when a group message is recorded), notifies the requester, notifies
the group and confirms to the admin. -/
def handle_admin_complete (db : Db) (oid : Nat) (is_admin : Bool) (now : Nat) :
    Db × List Effect :=
  if ¬ is_admin then (db, [Effect.callbackAlert ADMIN_ONLY_MESSAGE])
  else
    match get_order db oid with
    | none => (db, [Effect.replyText ORDER_NOT_FOUND_MESSAGE])
    | some order =>
      let db1 := mark_order_completed db oid now
      let notify_target := match get_order db1 oid with
        | some updated => updated.user_id
        | none => order.user_id
      let edit_fx := match get_order db1 oid with
        | some updated =>
          match updated.group_message_id with
          | some mid => [Effect.editGroupMessage mid]
          | none => []
        | none => []
      (db1,
        edit_fx ++
          [Effect.sendUser notify_target (ORDER_COMPLETED_USER_MESSAGE oid),
            Effect.sendGroup (ORDER_COMPLETED_GROUP_MESSAGE oid),
            Effect.replyText ("Заказ #" ++ toString oid ++ " отмечен как выполненный.")])

/-! ## Admin action router (`handle_admin_text_input`) -/

/-- Visible outcome of `handle_admin_text_input`. -/
inductive AdminTextOutcome where
  | ignored
  | repromptNumericId
  | adminAdded (user_id : Int)
  | broadcastDone (delivered : Nat)
  deriving Repr, DecidableEq

/-- `handle_admin_text_input`: gated by `context.user_data["admin_action"]`.
Result is (new value of the flag, outcome).  `add_admin` with a non-numeric
id replies "Укажите числовой ID пользователя." and returns WITHOUT popping
the flag; the numeric path and the broadcast path pop it, as does the
not-an-admin path.  Broadcast delivery failures (transport) are out of
scope, so `delivered` counts every known chat id. -/
def handle_admin_text_input (action : Option String) (is_admin : Bool)
    (text : String) (chat_ids : List Int) : Option String × AdminTextOutcome :=
  match action with
  | none => (none, AdminTextOutcome.ignored)
  | some a =>
    if ¬ is_admin then (none, AdminTextOutcome.ignored)
    else if a = "add_admin" then
      let t := pyStrip text
      if ¬ pyIsDigit t then (some a, AdminTextOutcome.repromptNumericId)
      else (none, AdminTextOutcome.adminAdded (pyIntOfDigits t))
    else if a = "broadcast" then
      (none, AdminTextOutcome.broadcastDone chat_ids.length)
    else (some a, AdminTextOutcome.ignored)

/-! ## The `main_menu_keyboard` call mismatch (`keyboards.py` / `handlers.py`) -/

/-- A Python runtime error observable at the dispatcher boundary. -/
inductive PyError where
  | typeError (unexpected_keyword : String)
  deriving Repr, DecidableEq

/-- The parameter list of `keyboards.main_menu_keyboard` — the `def` takes no
parameters at all. -/
def main_menu_keyboard_params : List String := []

/-- Keyword-argument binding of a Python call: a keyword argument that is not
among the callee's parameter names raises `TypeError` before the callee body
runs. -/
def bindKwargs (params kwargs : List String) : Except PyError Unit :=
  match kwargs.find? (fun k => ¬ params.contains k) with
  | some k => Except.error (PyError.typeError k)
  | none => Except.ok ()

/-- The keyword arguments `start_command` and the unknown-type branch of
`handle_order_type_selection` pass to `main_menu_keyboard`:
`main_menu_keyboard(is_admin=is_admin)`. -/
def main_menu_call_kwargs : List String := ["is_admin"]

def GREETING_MESSAGE : String :=
  "Привет! Этот бот поможет оформить анонимный заказ на выполнение учебной работы.\n\n" ++
    "Выберите тип задания из меню ниже:"

def GENERIC_ERROR_MESSAGE : String :=
  "Произошла непредвиденная ошибка. Попробуйте ещё раз позже или начните заново с /start."

/-- Result of running `start_command` for one update. -/
structure StartOutcome where
  effects : List Effect
  persisted : UserStates
  conv_state : Option Nat
  raised : Option PyError
  deriving Repr, DecidableEq

/-- `start_command`: after resetting `user_data` and upserting the profile it
evaluates `main_menu_keyboard(is_admin=is_admin)` as the reply markup of the
greeting.  That argument expression is evaluated before anything is sent, so
on `TypeError` the greeting is never delivered, `_persist_state` never runs
(the stored row stays as it was) and `CHOOSING_TYPE` is never returned (the
conversation is not entered). -/
def start_command_run (ps : UserStates) (ud : UserData) : StartOutcome :=
  match bindKwargs main_menu_keyboard_params main_menu_call_kwargs with
  | Except.error e =>
    { effects := [], persisted := ps, conv_state := none, raised := some e }
  | Except.ok _ =>
    { effects := [Effect.replyText GREETING_MESSAGE]
      persisted := persist_state CHOOSING_TYPE ud
      conv_state := some CHOOSING_TYPE
      raised := none }

/-- The dispatcher-level `error_handler`: any exception escaping a handler is
logged and answered with the generic apology; the dispatcher stays alive. -/
def dispatch_error_handler (raised : Option PyError) : List Effect :=
  match raised with
  | some _ => [Effect.replyText GENERIC_ERROR_MESSAGE]
  | none => []

/-! ## Intake step handlers (`handlers.py`) -/

def ORDER_TYPES (t : String) : Option String :=
  if t = "homework" then some "Домашнее задание"
  else if t = "eclass" then some "Закрыть eclass"
  else if t = "project" then some "Проект"
  else if t = "laboratory" then some "Лабораторная работа"
  else none

def PROMPT_SUBJECT : String := "Введите полное название предмета:"

def PROMPT_DESCRIPTION : String :=
  "Отправьте файл с требованиями из eclass или опишите задачу текстом:"

def PROMPT_ADDITIONAL : String :=
  "Есть ли дополнительные пожелания? Опишите что конкретно хотите, или напишите 'нет'"

def PROMPT_DEADLINE : String :=
  "Укажите дедлайн (например: 15.12.2024 18:00) или напишите 'нет', если его нет:"

def PROMPT_BUDGET : String := "Укажите ваш бюджет (сумму в сумах или тенге):"

/-- `handle_order_type_selection`: known type stores it, prompts for the
subject and persists `ENTERING_SUBJECT`; an unknown type rebuilds the main
menu via `main_menu_keyboard(is_admin=...)`, which raises `TypeError`
(the last component is the raised error, `none` when the handler returns). -/
def handle_order_type_selection (payload_type : String) (ud : UserData)
    (ps : UserStates) : Nat × UserData × UserStates × List Effect × Option PyError :=
  match ORDER_TYPES payload_type with
  | none =>
    match bindKwargs main_menu_keyboard_params main_menu_call_kwargs with
    | Except.error e => (CHOOSING_TYPE, ud, ps, [], some e)
    | Except.ok _ =>
      (CHOOSING_TYPE, ud, ps,
        [Effect.editQueryMessage "Неизвестный тип заказа. Попробуйте ещё раз."], none)
  | some label =>
    let ud' := { ud with order_type := some payload_type, order_type_label := some label }
    (ENTERING_SUBJECT, ud', persist_state ENTERING_SUBJECT ud',
      [Effect.editQueryMessage ("Вы выбрали: " ++ label ++ "\n\n" ++ PROMPT_SUBJECT)], none)

/-- `handle_subject`: stores the stripped text and advances, persisting
`ENTERING_DESCRIPTION` (empty text is the falsy no-op guard). -/
def handle_subject (text : String) (ud : UserData) (ps : UserStates) :
    Nat × UserData × UserStates × List Effect :=
  if text = "" then (ENTERING_SUBJECT, ud, ps, [])
  else
    let ud' := { ud with subject := some (pyStrip text) }
    (ENTERING_DESCRIPTION, ud', persist_state ENTERING_DESCRIPTION ud',
      [Effect.replyText PROMPT_DESCRIPTION])

/-- `handle_description`: an attachment stores the file and the placeholder
description; otherwise non-empty text stores the stripped text and pops any
stale file keys; otherwise re-prompt.  Advances to `ENTERING_ADDITIONAL`. -/
def handle_description (text : Option String) (file : Option (String × String))
    (ud : UserData) (ps : UserStates) : Nat × UserData × UserStates × List Effect :=
  match file with
  | some (fid, ftype) =>
    let ud' := { ud with file_id := some fid, file_type := some ftype,
                         description := some "Файл прикреплен" }
    (ENTERING_ADDITIONAL, ud', persist_state ENTERING_ADDITIONAL ud',
      [Effect.replyText PROMPT_ADDITIONAL])
  | none =>
    match text with
    | some t =>
      if t = "" then
        (ENTERING_DESCRIPTION, ud, ps,
          [Effect.replyText "Пожалуйста, отправьте файл или опишите задачу текстом."])
      else
        let ud' := { ud with description := some (pyStrip t),
                             file_id := none, file_type := none }
        (ENTERING_ADDITIONAL, ud', persist_state ENTERING_ADDITIONAL ud',
          [Effect.replyText PROMPT_ADDITIONAL])
    | none =>
      (ENTERING_DESCRIPTION, ud, ps,
        [Effect.replyText "Пожалуйста, отправьте файл или опишите задачу текстом."])

/-- `handle_additional`: stores the stripped text, advances to the deadline
step and persists `ENTERING_DEADLINE`. -/
def handle_additional (text : String) (ud : UserData) (ps : UserStates) :
    Nat × UserData × UserStates × List Effect :=
  if text = "" then (ENTERING_ADDITIONAL, ud, ps, [])
  else
    let ud' := { ud with additional_info := some (pyStrip text) }
    (ENTERING_DEADLINE, ud', persist_state ENTERING_DEADLINE ud',
      [Effect.replyText PROMPT_DEADLINE])

/-- `handle_deadline`: stores the stripped text, advances to the budget step
and persists `ENTERING_BUDGET`. -/
def handle_deadline (text : String) (ud : UserData) (ps : UserStates) :
    Nat × UserData × UserStates × List Effect :=
  if text = "" then (ENTERING_DEADLINE, ud, ps, [])
  else
    let ud' := { ud with deadline := some (pyStrip text) }
    (ENTERING_BUDGET, ud', persist_state ENTERING_BUDGET ud',
      [Effect.replyText PROMPT_BUDGET])

/-! ## Restart behaviour of the conversation (`register_handlers`) -/

def FALLBACK_RESTART_MESSAGE : String := "Используйте /start для оформления заказа"

/-- `Database.clear_user_state`: delete the row. -/
def clear_user_state (_ps : UserStates) : UserStates := none

/-- `handle_fallback_message`: clears any saved state and tells the user to
start over. -/
def handle_fallback_message (saved : UserStates) : UserStates × List Effect :=
  (clear_user_state saved, [Effect.replyText FALLBACK_RESTART_MESSAGE])

/-- What happens to the first private text message after a process restart:
`build_conversation_handler` passes `persistent=False`, so the conversation
state map starts empty, and `Database.get_user_state` has no caller anywhere
in the repository, so the saved row is never read back.  The message
therefore falls through the conversation handler; in group 0
`handle_admin_text_input` sees a fresh empty `user_data` (no action flag) and
does nothing; in group 1 `handle_fallback_message` deletes the saved row and
answers with the restart notice. -/
def post_restart_text_message (saved : UserStates) (text : String)
    (chat_ids : List Int) : UserStates × List Effect :=
  let admin_pass := handle_admin_text_input none true text chat_ids
  match admin_pass with
  | (_, _) => handle_fallback_message saved

/-! ## Composed system: order store, decline waitlist, upload key

One requester's order plus the dispatcher's shared in-memory state.  Each
event is the atomic execution of one complete handler (the interleaving
counterexamples split handlers into their read and write segments
separately, see `accept_guard` / `accept_commit`). -/

structure Sys where
  db : Db
  waitlist : Waitlist
  upload_key : Option Nat
  deriving Repr, DecidableEq

inductive Ev where
  | accept (oid : Nat) (ex : Executor) (qmid : Nat)
  | decline (oid : Nat) (ex : Executor) (qmid prompt_mid : Nat)
  | declineReason (reply_id : Nat) (sender : Int) (text : Option String)
  | uploadRequest (oid : Nat) (user : Int)
  | submitReceipt (user : Int) (file : Option (String × String)) (now : Nat)
  | review (oid : Nat) (approve : Bool) (reviewer : Int) (is_admin : Bool) (now : Nat)
  | adminComplete (oid : Nat) (is_admin : Bool) (now : Nat)
  deriving Repr, DecidableEq

/-- Dispatch one inbound event to its handler (effects dropped). -/
def stepSys (s : Sys) (e : Ev) : Sys :=
  match e with
  | Ev.accept oid ex qmid =>
    { s with db := (handle_order_accept s.db oid ex qmid).1 }
  | Ev.decline oid ex qmid pmid =>
    let r := handle_order_decline s.db s.waitlist oid ex qmid pmid
    { s with db := r.1, waitlist := r.2.1 }
  | Ev.declineReason rid sender text =>
    let r := handle_decline_reason_message s.db s.waitlist rid sender text
    { s with db := r.1, waitlist := r.2.1 }
  | Ev.uploadRequest oid user =>
    { s with upload_key := (handle_payment_upload_request s.db s.upload_key oid user).1 }
  | Ev.submitReceipt user file now =>
    let r := handle_payment_receipt_submission s.db s.upload_key user file now
    { s with db := r.1, upload_key := r.2.1 }
  | Ev.review oid approve reviewer adm now =>
    { s with db := (handle_payment_review_callback s.db oid approve reviewer adm now).1 }
  | Ev.adminComplete oid adm now =>
    { s with db := (handle_admin_complete s.db oid adm now).1 }

def runSys (s : Sys) (evs : List Ev) : Sys := evs.foldl stepSys s

/-- Does this event take the success path of a claim (accept) or decline —
the exact guards of `handle_order_accept` / `handle_order_decline` evaluated
against the pre-state. -/
def claimOrDeclineWins (s : Sys) (e : Ev) : Bool :=
  match e with
  | Ev.accept oid _ _ =>
    match get_order s.db oid with
    | some o => o.status = "pending" ∨ o.status = "awaiting_decline_reason"
    | none => false
  | Ev.decline oid _ _ _ =>
    match get_order s.db oid with
    | some o => o.status = "pending"
    | none => false
  | _ => false

/-- Run the system while recording whether any claim/decline succeeded. -/
def runFlag : Sys × Bool → List Ev → Sys × Bool
  | sf, [] => sf
  | (s, f), e :: evs => runFlag (stepSys s e, f || claimOrDeclineWins s e) evs

/-- The system as it stands right after intake confirmation: one freshly
created order, empty waitlist, no armed upload key. -/
def initSys (o : OrderRecord) : Sys :=
  { db := [o], waitlist := [], upload_key := none }

/-- The invariant that actually holds along every run from a fresh order:
the executor is recorded exactly when some claim or decline attempt has
succeeded, and waitlist entries exist only after a successful decline. -/
def SysInv (s : Sys) (f : Bool) : Prop :=
  (∃ o, s.db = [o] ∧ o.executor_id.isSome = f) ∧ (f = false → s.waitlist = [])

/-! ## Concrete sample data used by closed theorems -/

def sampleOrder : OrderRecord :=
  newOrder 1 100 (some "student") (some "Иван") none
    "Домашнее задание" "Математика" "Решить задачи"
    none none (some "нет") (some "нет") "1200"

def exAlice : Executor := { id := 201, username := some "alice", full_name := "Alice A" }

def exBob : Executor := { id := 202, username := some "bob", full_name := "Bob B" }

def exNoName : Executor := { id := 301, username := none, full_name := "Bob NoUsername" }

def adminId : Int := 7

def priorDeclinerOrder : OrderRecord :=
  { sampleOrder with
    status := "awaiting_decline_reason"
    executor_id := some 201
    executor_username := some "alice" }

def inProgressOrder : OrderRecord :=
  { sampleOrder with
    status := "in_progress"
    executor_id := some 201
    executor_username := some "alice"
    payment_status := some "confirmed"
    group_message_id := some 10 }

def awaitingReasonOrder : OrderRecord :=
  { sampleOrder with
    status := "awaiting_decline_reason"
    executor_id := some 201
    executor_username := some "alice"
    group_message_id := some 10 }

/-- The payment loop's starting point: the sample order right after
`handle_order_accept` (status `awaiting_payment`, payment `requested`). -/
def paymentStart : Sys := runSys (initSys sampleOrder) [Ev.accept 1 exAlice 10]

def afterEvidence1 : Sys :=
  runSys paymentStart [Ev.uploadRequest 1 100, Ev.submitReceipt 100 (some ("receipt1", "photo")) 1]

def afterReject : Sys := runSys afterEvidence1 [Ev.review 1 false adminId true 2]

def afterEvidence2 : Sys :=
  runSys afterReject [Ev.uploadRequest 1 100, Ev.submitReceipt 100 (some ("receipt2", "photo")) 3]

def afterApprove : Sys := runSys afterEvidence2 [Ev.review 1 true adminId true 4]

/-- Interleaving for the C6 counterexample: the upload button is pressed
while payment is awaited, then the admin approves (status `in_progress`),
and only then is the receipt attached. -/
def armedThenApproved : Sys :=
  runSys paymentStart [Ev.uploadRequest 1 100, Ev.review 1 true adminId true 2]

/-- Helper: the status of the (single) tracked order. -/
def orderStatus (s : Sys) : Option String := (get_order s.db 1).map (fun o => o.status)

/-- Helper: the payment status of the (single) tracked order. -/
def orderPaymentStatus (s : Sys) : Option (Option String) :=
  (get_order s.db 1).map (fun o => o.payment_status)

/-- First completion of the in-progress sample order at time 5. -/
def completeOnce : Db × List Effect := handle_admin_complete [inProgressOrder] 1 true 5

/-- Second completion of the same, already completed, order at time 9. -/
def completeTwice : Db × List Effect := handle_admin_complete completeOnce.1 1 true 9

/-- A receipt attached only after the admin has already approved (the upload
key was armed earlier, while payment was still awaited). -/
def lateSubmission : Db × Option Nat × List Effect :=
  handle_payment_receipt_submission armedThenApproved.db armedThenApproved.upload_key
    100 (some ("receipt9", "photo")) 9

/-- A full decline: provisional decline by Alice, then her reason reply. -/
def declinedTrace : Sys :=
  runSys (initSys sampleOrder)
    [Ev.decline 1 exAlice 10 11, Ev.declineReason 11 201 (some "не успеваю")]

/-- An admin completes a still-pending order (the complete branch has no
status guard, and pending orders are listed in the admin orders keyboard). -/
def completedFromPending : Sys := runSys (initSys sampleOrder) [Ev.adminComplete 1 true 5]

/-! ## Theorems -/

/-- Helper: looking up the head order of the table by its own id. -/
theorem get_order_cons_self (o : OrderRecord) (rest : Db) :
    get_order (o :: rest) o.order_id = some o := by
  simp [get_order, List.find?]

/-- C7 counterexample: the code first strips surrounding whitespace, so the
input `" 1200"` is accepted and stored as `"1200"`, although its
normalization as worded by the claim (only the comma rewritten to a period)
is `" 1200"`, which does not match `^\d+(\.\d+)?$`.  Hence "accepts exactly
the inputs whose normalization matches" is false as stated. -/
theorem C7_strip_counterexample :
    (handle_budget " 1200" sampleDraft none).1 = CONFIRMING ∧
    (handle_budget " 1200" sampleDraft none).2.1.budget = some "1200" ∧
    claimBudgetAccepts " 1200" = false := by
  decide

/-- C7 (amended): budget validation accepts exactly the inputs whose
normalization — surrounding whitespace stripped, then the comma decimal
separator rewritten to a period — matches `^\d+(\.\d+)?$`, and stores the
normalized form; on failure it re-prompts and the intake stays at the budget
step with draft and persisted state unchanged.  `"1200"`, `"1200,50"`,
`"1200.50"` are accepted and stored as `"1200"` / `"1200.50"` / `"1200.50"`,
while `"abc"` and `"12.5.3"` are rejected without advancing. -/
theorem C7_budget_validation (text : String) (ud : UserData) (ps : UserStates)
    (hne : text ≠ "") :
    ((budgetPatternMatch (replaceCommaWithDot (pyStrip text)) = true →
        handle_budget text ud ps =
          (CONFIRMING,
            { ud with budget := some (replaceCommaWithDot (pyStrip text)) },
            persist_state CONFIRMING
              { ud with budget := some (replaceCommaWithDot (pyStrip text)) },
            [Effect.replyText (orderSummary
              { ud with budget := some (replaceCommaWithDot (pyStrip text)) })])) ∧
      (budgetPatternMatch (replaceCommaWithDot (pyStrip text)) = false →
        handle_budget text ud ps =
          (ENTERING_BUDGET, ud, ps, [Effect.replyText ERROR_INVALID_BUDGET]))) ∧
    ((handle_budget "1200" sampleDraft none).2.1.budget = some "1200" ∧
      (handle_budget "1200,50" sampleDraft none).2.1.budget = some "1200.50" ∧
      (handle_budget "1200.50" sampleDraft none).2.1.budget = some "1200.50" ∧
      (handle_budget "abc" sampleDraft none).1 = ENTERING_BUDGET ∧
      (handle_budget "abc" sampleDraft none).2.1 = sampleDraft ∧
      (handle_budget "12.5.3" sampleDraft none).1 = ENTERING_BUDGET ∧
      (handle_budget "12.5.3" sampleDraft none).2.2.1 = none) := by
  refine ⟨⟨fun h => ?_, fun h => ?_⟩, by decide⟩
  · simp [handle_budget, hne, h]
  · simp [handle_budget, hne, h]

/-- Witness for `C7_budget_validation` at the concrete input `"1200,50"`. -/
theorem C7_budget_validation_witness :
    handle_budget "1200,50" sampleDraft none =
      (CONFIRMING,
        { sampleDraft with budget := some (replaceCommaWithDot (pyStrip "1200,50")) },
        persist_state CONFIRMING
          { sampleDraft with budget := some (replaceCommaWithDot (pyStrip "1200,50")) },
        [Effect.replyText (orderSummary
          { sampleDraft with budget := some (replaceCommaWithDot (pyStrip "1200,50")) })]) :=
  (C7_budget_validation "1200,50" sampleDraft none (by decide)).1.1 (by decide)

/-- C1 counterexample.  The handler's status guard (`accept_guard`) and its
writes (`accept_commit`) are separated by `await` suspension points, and the
writes are keyed on `order_id` only.  In the interleaving where both
executors' guard segments run before either write segment: both guards read
`pending` and pass (so neither attempt observes the "already processed"
alert), both commits run, and the second commit silently overwrites the
first executor — two attempts "succeed", falsifying "exactly one attempt
transitions the order ... and the other observes AlreadyProcessedError".
The third conjunct shows the status-changing write is not a conditional
update keyed on the expected prior status: applied to an order already
`completed` it still overwrites the status. -/
theorem C1_interleaved_claims_counterexample :
    accept_guard [sampleOrder] 1 = some true ∧
    (get_order (accept_commit (accept_commit [sampleOrder] 1 exAlice) 1 exBob) 1).map
        (fun o => (o.status, o.executor_id)) = some ("awaiting_payment", some 202) ∧
    (get_order (update_order_status [{ sampleOrder with status := "completed" }] 1
        "awaiting_payment" (some exAlice.id) exAlice.username none) 1).map
        (fun o => o.status) = some "awaiting_payment" := by
  decide

/-- C1 (amended): when the two claim attempts execute serially (each
handler's read-guard-write sequence runs without interleaving), exactly one
succeeds: the first transitions the order to `awaiting_payment` with its
executor recorded, and the second observes the "already processed" alert and
leaves the table unchanged.  The status-changing write itself is
unconditional (`WHERE order_id = ?` only); the prior-status guard is a
separate read in the handler, so this exclusivity relies on handlers not
interleaving between the read and the write. -/
theorem C1_serial_claim_exclusivity (o : OrderRecord) (ex1 ex2 : Executor)
    (q1 q2 : Nat) (hp : o.status = "pending") :
    (handle_order_accept [o] o.order_id ex1 q1).1 =
      [{ o with
           status := "awaiting_payment"
           executor_id := some ex1.id
           executor_username := coalesce ex1.username o.executor_username
           payment_status := some "requested" }] ∧
    handle_order_accept (handle_order_accept [o] o.order_id ex1 q1).1 o.order_id ex2 q2 =
      ((handle_order_accept [o] o.order_id ex1 q1).1,
        [Effect.callbackAlert ORDER_ALREADY_PROCESSED_MESSAGE]) := by
  have hget : get_order [o] o.order_id = some o := get_order_cons_self o []
  have h1 : (handle_order_accept [o] o.order_id ex1 q1).1 =
      [{ o with
           status := "awaiting_payment"
           executor_id := some ex1.id
           executor_username := coalesce ex1.username o.executor_username
           payment_status := some "requested" }] := by
    simp [handle_order_accept, hget, hp, accept_commit, update_order_status,
      update_payment_status, coalesce]
  refine ⟨h1, ?_⟩
  rw [h1]
  simp [handle_order_accept, get_order, List.find?, accept_commit]

/-- Witness for `C1_serial_claim_exclusivity`: the two concrete serial
attempts on the sample pending order. -/
theorem C1_serial_claim_exclusivity_witness :
    handle_order_accept (handle_order_accept [sampleOrder] sampleOrder.order_id exAlice 10).1
        sampleOrder.order_id exBob 11 =
      ((handle_order_accept [sampleOrder] sampleOrder.order_id exAlice 10).1,
        [Effect.callbackAlert ORDER_ALREADY_PROCESSED_MESSAGE]) :=
  (C1_serial_claim_exclusivity sampleOrder exAlice exBob 10 11 (by decide)).2

/-- C2 counterexample: accepting an `awaiting_decline_reason` order whose
provisional decliner had username `alice`, by a different executor who has
no username, leaves `executor_username = "alice"` (the `COALESCE` keeps the
old value), so the claim's "records the claiming executor's id and username"
fails for the username. -/
theorem C2_stale_username_counterexample :
    (get_order (handle_order_accept [priorDeclinerOrder] 1 exNoName 10).1 1).map
        (fun o => (o.status, o.executor_id, o.executor_username)) =
      some ("awaiting_payment", some 301, some "alice") ∧
    exNoName.username = none := by
  decide

/-- C2 (amended): for an order whose status is outside
{pending, awaiting_decline_reason} the claim operation leaves the record
entirely unchanged and reports the non-alarming "already processed" notice;
for a status inside the set it sets status `awaiting_payment`, records the
claiming executor's id, records the username only when the executor has one
(otherwise the previously stored executor username is kept, by `COALESCE`),
and sets the payment status to `requested`. -/
theorem C2_claim_guard_and_updates (o : OrderRecord) (ex : Executor) (qmid : Nat) :
    (¬ (o.status = "pending" ∨ o.status = "awaiting_decline_reason") →
      handle_order_accept [o] o.order_id ex qmid =
        ([o], [Effect.callbackAlert ORDER_ALREADY_PROCESSED_MESSAGE])) ∧
    ((o.status = "pending" ∨ o.status = "awaiting_decline_reason") →
      handle_order_accept [o] o.order_id ex qmid =
        ([{ o with
              status := "awaiting_payment"
              executor_id := some ex.id
              executor_username := coalesce ex.username o.executor_username
              payment_status := some "requested" }],
          [Effect.editGroupMessage qmid,
            Effect.sendUser o.user_id (ORDER_ACCEPTED_USER_MESSAGE o.order_id),
            Effect.paymentRequest o.user_id o.order_id,
            Effect.sendGroup
              ((DECLINE_REASON_TAKEN (ex.username.getD ex.full_name) o.order_id o.budget) ++
                "\n💳 Ожидаем квитанцию от студента.")])) := by
  have hget : get_order [o] o.order_id = some o := get_order_cons_self o []
  constructor
  · intro hno
    simp [handle_order_accept, hget, hno]
  · intro hin
    simp [handle_order_accept, hget, hin, accept_commit, update_order_status,
      update_payment_status, coalesce]

/-- Witness for `C2_claim_guard_and_updates`: the in-set branch on the
sample pending order. -/
theorem C2_claim_guard_and_updates_witness :
    handle_order_accept [sampleOrder] sampleOrder.order_id exAlice 10 =
      ([{ sampleOrder with
            status := "awaiting_payment"
            executor_id := some exAlice.id
            executor_username := coalesce exAlice.username sampleOrder.executor_username
            payment_status := some "requested" }],
        [Effect.editGroupMessage 10,
          Effect.sendUser sampleOrder.user_id (ORDER_ACCEPTED_USER_MESSAGE sampleOrder.order_id),
          Effect.paymentRequest sampleOrder.user_id sampleOrder.order_id,
          Effect.sendGroup
            ((DECLINE_REASON_TAKEN (exAlice.username.getD exAlice.full_name)
                sampleOrder.order_id sampleOrder.budget) ++
              "\n💳 Ожидаем квитанцию от студента.")]) :=
  (C2_claim_guard_and_updates sampleOrder exAlice 10).2 (Or.inl (by decide))

/-- C3: completing an already-completed order is NOT reported as "already
processed": the second call re-runs the whole completion — it overwrites
`completed_at` (5 becomes 9), and re-sends the requester and group
notifications (the second call's effect list equals the first's, and no
"already processed" notice appears).  This contradicts the claim and the
spec's stated idempotency requirement; the handler simply lacks the guard
that `handle_order_accept` / `handle_order_decline` have. -/
theorem C3_double_completion_not_idempotent :
    (get_order completeOnce.1 1).map (fun o => (o.status, o.completed_at)) =
      some ("completed", some 5) ∧
    (get_order completeTwice.1 1).map (fun o => (o.status, o.completed_at)) =
      some ("completed", some 9) ∧
    completeTwice.2 = completeOnce.2 ∧
    Effect.sendUser 100 (ORDER_COMPLETED_USER_MESSAGE 1) ∈ completeTwice.2 ∧
    Effect.sendGroup (ORDER_COMPLETED_GROUP_MESSAGE 1) ∈ completeTwice.2 ∧
    ¬ Effect.callbackAlert ORDER_ALREADY_PROCESSED_MESSAGE ∈ completeTwice.2 := by
  decide

/-- C5 counterexample: the reply text `" слишком сложно "` from the recorded
decliner is stored as `"слишком сложно"` — `message.text.strip()` is applied
before storing, so the reason is NOT stored verbatim. -/
theorem C5_strip_counterexample :
    (get_order (handle_decline_reason_message [awaitingReasonOrder]
        [(11, ⟨1, 201⟩)] 11 201 (some " слишком сложно ")).1 1).map
        (fun o => o.decline_reason) = some (some "слишком сложно") ∧
    ¬ ((" слишком сложно " : String) = "слишком сложно") := by
  decide

/-- C5 (amended): with a live correlation for the replied-to prompt, a reply
from any identity other than the recorded decliner is rejected with the
"reason required" notice and both the order and the waitlist are unchanged;
a reply from the recorded decliner whose text is non-empty after stripping
transitions the order to `declined` with the stripped reason stored, and
consumes the correlation entry. -/
theorem C5_decline_reason_flow (o : OrderRecord) (wl : Waitlist) (reply_id : Nat)
    (pl : DeclinePayload) (sender : Int) (t : String)
    (hfind : (wl.find? (fun e => e.1 = reply_id)).map (fun e => e.2) = some pl)
    (hoid : o.order_id = pl.order_id) :
    (¬ sender = pl.executor_id →
      handle_decline_reason_message [o] wl reply_id sender (some t) =
        ([o], wl, [Effect.replyText DECLINE_REASON_REQUIRED_MESSAGE])) ∧
    (sender = pl.executor_id → ¬ pyStrip t = "" →
      handle_decline_reason_message [o] wl reply_id sender (some t) =
        ([{ o with status := "declined", decline_reason := some (pyStrip t) }],
          wl.filter (fun e => ¬ e.1 = reply_id),
          [Effect.editGroupMessage (o.group_message_id.getD 0),
            Effect.sendUser o.user_id (ORDER_DECLINED_USER_MESSAGE pl.order_id (pyStrip t))])) := by
  have hget : get_order [o] pl.order_id = some o := by
    rw [← hoid]; exact get_order_cons_self o []
  constructor
  · intro hne
    simp [handle_decline_reason_message, hfind, hne]
  · intro hs hr
    simp [handle_decline_reason_message, hfind, hs, hr, hget,
      update_order_status, coalesce, hoid]

/-- Witness for `C5_decline_reason_flow`: the decliner answers the live
prompt with a non-empty reason. -/
theorem C5_decline_reason_flow_witness :
    handle_decline_reason_message [awaitingReasonOrder] [(11, ⟨1, 201⟩)] 11 201
        (some "не успеваю") =
      ([{ awaitingReasonOrder with
            status := "declined", decline_reason := some (pyStrip "не успеваю") }],
        ([(11, (⟨1, 201⟩ : DeclinePayload))].filter (fun e => ¬ e.1 = 11)),
        [Effect.editGroupMessage (awaitingReasonOrder.group_message_id.getD 0),
          Effect.sendUser awaitingReasonOrder.user_id
            (ORDER_DECLINED_USER_MESSAGE 1 (pyStrip "не успеваю"))]) :=
  (C5_decline_reason_flow awaitingReasonOrder [(11, ⟨1, 201⟩)] 11 ⟨1, 201⟩ 201
    "не успеваю" (by decide) (by decide)).2 (by decide) (by decide)

/-- C6 counterexample to "evidence submission is accepted only while status
is `awaiting_payment` or `payment_review`": press the upload button while
`awaiting_payment`, let the admin approve (status becomes `in_progress`),
then attach the receipt — `handle_payment_receipt_submission` does not
re-check the status and accepts it, dragging the order back to
`payment_review` with `payment_status = submitted`. -/
theorem C6_late_submission_counterexample :
    orderStatus armedThenApproved = some "in_progress" ∧
    armedThenApproved.upload_key = some 1 ∧
    (get_order lateSubmission.1 1).map (fun o => (o.status, o.payment_status)) =
      some ("payment_review", some "submitted") := by
  decide

/-- C6 (amended): from `awaiting_payment`/`requested`, the event sequence
evidence, reject, evidence, approve drives the status through
`payment_review`, `awaiting_payment`, `payment_review`, `in_progress` and
the payment status through `requested, submitted, rejected, submitted,
confirmed`; a rejection re-sends a fresh payment request to the requester.
Evidence submission is accepted whenever the upload key is armed and the
order belongs to the sender; the key can only be armed while the status is
`awaiting_payment` or `payment_review` (the status is not re-checked at
submission time — see the counterexample). -/
theorem C6_payment_loop :
    (orderStatus paymentStart = some "awaiting_payment" ∧
      orderPaymentStatus paymentStart = some (some "requested") ∧
      orderStatus afterEvidence1 = some "payment_review" ∧
      orderPaymentStatus afterEvidence1 = some (some "submitted") ∧
      orderStatus afterReject = some "awaiting_payment" ∧
      orderPaymentStatus afterReject = some (some "rejected") ∧
      orderStatus afterEvidence2 = some "payment_review" ∧
      orderPaymentStatus afterEvidence2 = some (some "submitted") ∧
      orderStatus afterApprove = some "in_progress" ∧
      orderPaymentStatus afterApprove = some (some "confirmed") ∧
      Effect.paymentRequest 100 1 ∈
        (handle_payment_review_callback afterEvidence1.db 1 false adminId true 2).2) ∧
    (∀ (db : Db) (key : Option Nat) (oid : Nat) (user : Int),
      ¬ (handle_payment_upload_request db key oid user).1 = key →
      ∃ o, get_order db oid = some o ∧ o.user_id = user ∧
        (o.status = "awaiting_payment" ∨ o.status = "payment_review") ∧
        (handle_payment_upload_request db key oid user).1 = some oid) := by
  refine ⟨by decide, ?_⟩
  intro db key oid user hne
  cases hg : get_order db oid with
  | none => simp [handle_payment_upload_request, hg] at hne
  | some o =>
    by_cases hu : o.user_id = user
    · by_cases hs : o.status = "awaiting_payment" ∨ o.status = "payment_review"
      · exact ⟨o, rfl, hu, hs, by simp [handle_payment_upload_request, hg, hu, hs]⟩
      · simp [handle_payment_upload_request, hg, hu, hs] at hne
    · simp [handle_payment_upload_request, hg, hu] at hne

/-- Witness for `C6_payment_loop`: arming the key on the concrete
`awaiting_payment` state changes it, so the guard forces the armed result. -/
theorem C6_payment_loop_witness :
    ∃ o, get_order paymentStart.db 1 = some o ∧ o.user_id = 100 ∧
      (o.status = "awaiting_payment" ∨ o.status = "payment_review") ∧
      (handle_payment_upload_request paymentStart.db none 1 100).1 = some 1 :=
  (C6_payment_loop).2 paymentStart.db none 1 100 (by decide)

/-- C4: the first seven conjuncts show that every advancing intake step
persists exactly the new step name together with all fields collected so far
(`_persist_state` after every transition — this half of the claim holds).
The last two conjuncts show what actually happens on resume: after a process
restart the next text message is answered by the fallback handler, which
DELETES the saved row and tells the user to start over — the conversation
never continues at the saved step (`persistent=False` and
`Database.get_user_state` has no caller), contradicting the claim's resume
half.  In particular a draft saved at `ENTERING_BUDGET` is wiped. -/
theorem C4_steps_persist_but_restart_discards :
    (∀ (t label : String) (ud : UserData) (ps : UserStates),
      ORDER_TYPES t = some label →
      (handle_order_type_selection t ud ps).2.2.1 =
        persist_state ENTERING_SUBJECT
          { ud with order_type := some t, order_type_label := some label }) ∧
    (∀ (t : String) (ud : UserData) (ps : UserStates), ¬ t = "" →
      (handle_subject t ud ps).2.2.1 =
        persist_state ENTERING_DESCRIPTION { ud with subject := some (pyStrip t) }) ∧
    (∀ (fid ftype : String) (ud : UserData) (ps : UserStates),
      (handle_description none (some (fid, ftype)) ud ps).2.2.1 =
        persist_state ENTERING_ADDITIONAL
          { ud with file_id := some fid, file_type := some ftype,
                    description := some "Файл прикреплен" }) ∧
    (∀ (t : String) (ud : UserData) (ps : UserStates), ¬ t = "" →
      (handle_description (some t) none ud ps).2.2.1 =
        persist_state ENTERING_ADDITIONAL
          { ud with description := some (pyStrip t), file_id := none, file_type := none }) ∧
    (∀ (t : String) (ud : UserData) (ps : UserStates), ¬ t = "" →
      (handle_additional t ud ps).2.2.1 =
        persist_state ENTERING_DEADLINE { ud with additional_info := some (pyStrip t) }) ∧
    (∀ (t : String) (ud : UserData) (ps : UserStates), ¬ t = "" →
      (handle_deadline t ud ps).2.2.1 =
        persist_state ENTERING_BUDGET { ud with deadline := some (pyStrip t) }) ∧
    (∀ (t : String) (ud : UserData) (ps : UserStates), ¬ t = "" →
      budgetPatternMatch (replaceCommaWithDot (pyStrip t)) = true →
      (handle_budget t ud ps).2.2.1 =
        persist_state CONFIRMING
          { ud with budget := some (replaceCommaWithDot (pyStrip t)) }) ∧
    (∀ (saved : UserStates) (text : String) (ids : List Int),
      post_restart_text_message saved text ids =
        (none, [Effect.replyText FALLBACK_RESTART_MESSAGE])) ∧
    post_restart_text_message (some (some "ENTERING_BUDGET", sampleDraft)) "1200" [] =
      (none, [Effect.replyText FALLBACK_RESTART_MESSAGE]) := by
  refine ⟨?_, ?_, ?_, ?_, ?_, ?_, ?_, ?_, by decide⟩
  · intro t label ud ps h
    simp [handle_order_type_selection, h]
  · intro t ud ps h
    simp [handle_subject, h]
  · intro fid ftype ud ps
    simp [handle_description]
  · intro t ud ps h
    simp [handle_description, h]
  · intro t ud ps h
    simp [handle_additional, h]
  · intro t ud ps h
    simp [handle_deadline, h]
  · intro t ud ps h hb
    simp [handle_budget, h, hb]
  · intro saved text ids
    simp [post_restart_text_message, handle_fallback_message, clear_user_state,
      handle_admin_text_input]

/-- Witness for `C4_steps_persist_but_restart_discards`: the subject step on
concrete data persists the next step with the collected field. -/
theorem C4_steps_persist_witness :
    (handle_subject "Математика" sampleDraft none).2.2.1 =
      persist_state ENTERING_DESCRIPTION
        { sampleDraft with subject := some (pyStrip "Математика") } :=
  (C4_steps_persist_but_restart_discards).2.1 "Математика" sampleDraft none (by decide)

/-- C9 counterexample: an admin whose pending action is `add_admin` sends a
non-numeric id; the handler replies "Укажите числовой ID пользователя." and
returns WITHOUT clearing the flag, so the flag is still set afterwards —
"clears the flag afterwards regardless of whether the handling succeeded or
failed" is false as stated. -/
theorem C9_nonnumeric_keeps_flag :
    handle_admin_text_input (some "add_admin") true "abc" [] =
      (some "add_admin", AdminTextOutcome.repromptNumericId) ∧
    ¬ ((handle_admin_text_input (some "add_admin") true "abc" []).1 = none) := by
  decide

/-- C9 (amended): the pending-action flag is cleared after a broadcast text,
after a successful numeric admin addition, and when the sender turns out not
to be an admin; but a non-numeric add-admin input re-prompts and leaves the
flag set, so the next free-text message is gated again (the admin can simply
retry — they are not stuck, but the flag is not one-shot on failure). -/
theorem C9_admin_flag_lifecycle (text : String) (ids : List Int) (a : String) :
    (handle_admin_text_input (some "broadcast") true text ids =
      (none, AdminTextOutcome.broadcastDone ids.length)) ∧
    (pyIsDigit (pyStrip text) = true →
      handle_admin_text_input (some "add_admin") true text ids =
        (none, AdminTextOutcome.adminAdded (pyIntOfDigits (pyStrip text)))) ∧
    (pyIsDigit (pyStrip text) = false →
      handle_admin_text_input (some "add_admin") true text ids =
        (some "add_admin", AdminTextOutcome.repromptNumericId)) ∧
    (handle_admin_text_input (some a) false text ids =
      (none, AdminTextOutcome.ignored)) := by
  refine ⟨by simp [handle_admin_text_input], fun h => ?_, fun h => ?_,
    by simp [handle_admin_text_input]⟩
  · simp [handle_admin_text_input, h]
  · simp [handle_admin_text_input, h]

/-- Witness for `C9_admin_flag_lifecycle`: numeric input clears the flag. -/
theorem C9_admin_flag_lifecycle_witness :
    handle_admin_text_input (some "add_admin") true "424242" [] =
      (none, AdminTextOutcome.adminAdded (pyIntOfDigits (pyStrip "424242"))) :=
  (C9_admin_flag_lifecycle "424242" [] "broadcast").2.1 (by decide)

/-- C10: `keyboards.main_menu_keyboard` takes no parameters, yet
`start_command` (and the unknown-type branch of
`handle_order_type_selection`) calls it with the keyword argument
`is_admin`, so the call raises `TypeError` before anything is sent: the
greeting with the main menu is never delivered, no state is persisted, the
conversation is never entered, and the exception is absorbed only by the
dispatcher-level error handler, which answers with the generic apology. -/
theorem C10_main_menu_keyboard_typeerror (ps : UserStates) (ud : UserData)
    (pt : String) (hpt : ORDER_TYPES pt = none) :
    bindKwargs main_menu_keyboard_params main_menu_call_kwargs =
      Except.error (PyError.typeError "is_admin") ∧
    start_command_run ps ud =
      { effects := [], persisted := ps, conv_state := none,
        raised := some (PyError.typeError "is_admin") } ∧
    handle_order_type_selection pt ud ps =
      (CHOOSING_TYPE, ud, ps, [], some (PyError.typeError "is_admin")) ∧
    dispatch_error_handler (start_command_run ps ud).raised =
      [Effect.replyText GENERIC_ERROR_MESSAGE] := by
  refine ⟨rfl, ?_, ?_, ?_⟩
  · simp [start_command_run, bindKwargs, main_menu_keyboard_params,
      main_menu_call_kwargs, List.find?]
  · simp [handle_order_type_selection, hpt, bindKwargs, main_menu_keyboard_params,
      main_menu_call_kwargs, List.find?]
  · simp [dispatch_error_handler, start_command_run, bindKwargs,
      main_menu_keyboard_params, main_menu_call_kwargs, List.find?]

/-- Witness for `C10_main_menu_keyboard_typeerror` at a concrete unknown
order type. -/
theorem C10_main_menu_keyboard_typeerror_witness :
    start_command_run none sampleDraft =
      { effects := [], persisted := none, conv_state := none,
        raised := some (PyError.typeError "is_admin") } :=
  (C10_main_menu_keyboard_typeerror none sampleDraft "essay" (by decide)).2.1

/-- Helper: `get_order` on a one-row table. -/
theorem get_order_singleton (o : OrderRecord) (oid : Nat) :
    get_order [o] oid = if o.order_id = oid then some o else none := by
  by_cases h : o.order_id = oid <;> simp [get_order, List.find?, h]

/-- Helper: the claim writes on a one-row table. -/
theorem accept_commit_singleton (o : OrderRecord) (oid : Nat) (ex : Executor)
    (hid : o.order_id = oid) :
    accept_commit [o] oid ex =
      [{ o with
           status := "awaiting_payment"
           executor_id := some ex.id
           executor_username := coalesce ex.username o.executor_username
           payment_status := some "requested" }] := by
  simp [accept_commit, update_order_status, update_payment_status, hid, coalesce]

/-- Helper: the provisional-decline write on a one-row table. -/
theorem decline_write_singleton (o : OrderRecord) (oid : Nat) (ex : Executor)
    (hid : o.order_id = oid) :
    update_order_status [o] oid "awaiting_decline_reason" (some ex.id) ex.username none =
      [{ o with
           status := "awaiting_decline_reason"
           executor_id := some ex.id
           executor_username := coalesce ex.username o.executor_username }] := by
  simp [update_order_status, hid, coalesce]

/-- Helper: the decline-with-reason write on a one-row table. -/
theorem declined_write_singleton (o : OrderRecord) (oid : Nat) (r : String)
    (hid : o.order_id = oid) :
    update_order_status [o] oid "declined" none none (some r) =
      [{ o with status := "declined", decline_reason := some r }] := by
  simp [update_order_status, hid, coalesce]

/-- Helper: the receipt-submission writes on a one-row table. -/
theorem submit_writes_singleton (o : OrderRecord) (oid : Nat) (fid ftype : String)
    (user : Int) (now : Nat) (hid : o.order_id = oid) (huid : o.user_id = user) :
    update_payment_status
        (update_order_status (save_payment_receipt [o] oid fid ftype user now)
          oid "payment_review" none none none)
        oid "submitted" none none now =
      [{ o with
           status := "payment_review"
           payment_status := some "submitted"
           payment_receipt_file_id := some fid
           payment_receipt_type := some ftype
           payment_submitted_at := some now }] := by
  simp [save_payment_receipt, update_order_status, update_payment_status, hid, huid, coalesce]

/-- Helper: the approval writes on a one-row table. -/
theorem approve_writes_singleton (o : OrderRecord) (oid : Nat) (rv : Int) (now : Nat)
    (hid : o.order_id = oid) :
    update_order_status (update_payment_status [o] oid "confirmed" (some rv) none now)
        oid "in_progress" none none none =
      [{ o with
           status := "in_progress"
           payment_status := some "confirmed"
           payment_reviewed_by := some rv
           payment_reviewed_at := some now }] := by
  simp [update_order_status, update_payment_status, hid, coalesce]

/-- Helper: the rejection writes on a one-row table. -/
theorem reject_writes_singleton (o : OrderRecord) (oid : Nat) (rv : Int) (now : Nat)
    (hid : o.order_id = oid) :
    update_order_status (update_payment_status [o] oid "rejected" (some rv) none now)
        oid "awaiting_payment" none none none =
      [{ o with
           status := "awaiting_payment"
           payment_status := some "rejected"
           payment_reviewed_by := some rv
           payment_reviewed_at := some now }] := by
  simp [update_order_status, update_payment_status, hid, coalesce]

/-- Helper: the completion write on a one-row table. -/
theorem complete_write_singleton (o : OrderRecord) (oid : Nat) (now : Nat)
    (hid : o.order_id = oid) :
    mark_order_completed [o] oid now =
      [{ o with status := "completed", completed_at := some now }] := by
  simp [mark_order_completed, hid]

/-- Every dispatched event preserves the executor/flag invariant. -/
theorem sysInv_step (s : Sys) (f : Bool) (e : Ev) (h : SysInv s f) :
    SysInv (stepSys s e) (f || claimOrDeclineWins s e) := by
  obtain ⟨⟨o, hdb, hex⟩, hwl⟩ := h
  cases e with
  | accept oid ex qmid =>
    by_cases hid : o.order_id = oid
    · have hg : get_order [o] oid = some o := by rw [get_order_singleton, if_pos hid]
      by_cases hst : o.status = "pending" ∨ o.status = "awaiting_decline_reason"
      · have hw : claimOrDeclineWins s (Ev.accept oid ex qmid) = true := by
          simp [claimOrDeclineWins, hdb, hg, hst]
        refine ⟨⟨{ o with
            status := "awaiting_payment"
            executor_id := some ex.id
            executor_username := coalesce ex.username o.executor_username
            payment_status := some "requested" }, ?_, ?_⟩, ?_⟩
        · simp [stepSys, hdb, handle_order_accept, hg, hst,
            accept_commit_singleton o oid ex hid]
        · simp [hw]
        · simp [hw]
      · have hw : claimOrDeclineWins s (Ev.accept oid ex qmid) = false := by
          simp [claimOrDeclineWins, hdb, hg, hst]
        rw [hw, Bool.or_false]
        refine ⟨⟨o, ?_, hex⟩, ?_⟩
        · simp [stepSys, hdb, handle_order_accept, hg, hst]
        · intro hc; simpa [stepSys] using hwl hc
    · have hg : get_order [o] oid = none := by rw [get_order_singleton, if_neg hid]
      have hw : claimOrDeclineWins s (Ev.accept oid ex qmid) = false := by
        simp [claimOrDeclineWins, hdb, hg]
      rw [hw, Bool.or_false]
      refine ⟨⟨o, ?_, hex⟩, ?_⟩
      · simp [stepSys, hdb, handle_order_accept, hg]
      · intro hc; simpa [stepSys] using hwl hc
  | decline oid ex qmid pmid =>
    by_cases hid : o.order_id = oid
    · have hg : get_order [o] oid = some o := by rw [get_order_singleton, if_pos hid]
      by_cases hst : o.status = "pending"
      · have hw : claimOrDeclineWins s (Ev.decline oid ex qmid pmid) = true := by
          simp [claimOrDeclineWins, hdb, hg, hst]
        refine ⟨⟨{ o with
            status := "awaiting_decline_reason"
            executor_id := some ex.id
            executor_username := coalesce ex.username o.executor_username }, ?_, ?_⟩, ?_⟩
        · simp [stepSys, hdb, handle_order_decline, hg, hst,
            decline_write_singleton o oid ex hid]
        · simp [hw]
        · simp [hw]
      · have hw : claimOrDeclineWins s (Ev.decline oid ex qmid pmid) = false := by
          simp [claimOrDeclineWins, hdb, hg, hst]
        rw [hw, Bool.or_false]
        refine ⟨⟨o, ?_, hex⟩, ?_⟩
        · simp [stepSys, hdb, handle_order_decline, hg, hst]
        · intro hc; simpa [stepSys, hdb, handle_order_decline, hg, hst] using hwl hc
    · have hg : get_order [o] oid = none := by rw [get_order_singleton, if_neg hid]
      have hw : claimOrDeclineWins s (Ev.decline oid ex qmid pmid) = false := by
        simp [claimOrDeclineWins, hdb, hg]
      rw [hw, Bool.or_false]
      refine ⟨⟨o, ?_, hex⟩, ?_⟩
      · simp [stepSys, hdb, handle_order_decline, hg]
      · intro hc; simpa [stepSys, hdb, handle_order_decline, hg] using hwl hc
  | declineReason rid sender text =>
    have hw : claimOrDeclineWins s (Ev.declineReason rid sender text) = false := rfl
    rw [hw, Bool.or_false]
    cases hf : s.waitlist.find? (fun e => e.1 = rid) with
    | none =>
      refine ⟨⟨o, ?_, hex⟩, ?_⟩
      · simp [stepSys, hdb, handle_decline_reason_message, hf]
      · intro hc; simpa [stepSys, hdb, handle_decline_reason_message, hf] using hwl hc
    | some entry =>
      have hft : f = true := by
        cases hff : f with
        | false => rw [hwl hff] at hf; simp at hf
        | true => rfl
      have hvac : ∀ (P : Prop), f = false → P := by
        intro P hc; rw [hft] at hc; simp at hc
      by_cases hsend : sender = entry.2.executor_id
      · cases text with
        | none =>
          refine ⟨⟨o, ?_, hex⟩, fun hc => hvac _ hc⟩
          simp [stepSys, hdb, handle_decline_reason_message, hf, hsend]
        | some t =>
          by_cases hrt : pyStrip t = ""
          · refine ⟨⟨o, ?_, hex⟩, fun hc => hvac _ hc⟩
            simp [stepSys, hdb, handle_decline_reason_message, hf, hsend, hrt]
          · by_cases hid2 : o.order_id = entry.2.order_id
            · have hg : get_order [o] entry.2.order_id = some o := by
                rw [get_order_singleton, if_pos hid2]
              refine ⟨⟨{ o with
                  status := "declined"
                  decline_reason := some (pyStrip t) },
                  ?_, ?_⟩, fun hc => hvac _ hc⟩
              · simp [stepSys, hdb, handle_decline_reason_message, hf, hsend, hrt, hg,
                  declined_write_singleton o entry.2.order_id _ hid2]
              · simpa using hex
            · have hg : get_order [o] entry.2.order_id = none := by
                rw [get_order_singleton, if_neg hid2]
              refine ⟨⟨o, ?_, hex⟩, fun hc => hvac _ hc⟩
              simp [stepSys, hdb, handle_decline_reason_message, hf, hsend, hrt, hg]
      · refine ⟨⟨o, ?_, hex⟩, fun hc => hvac _ hc⟩
        simp [stepSys, hdb, handle_decline_reason_message, hf, hsend]
  | uploadRequest oid user =>
    have hw : claimOrDeclineWins s (Ev.uploadRequest oid user) = false := rfl
    rw [hw, Bool.or_false]
    refine ⟨⟨o, ?_, hex⟩, ?_⟩
    · simp [stepSys, hdb]
    · intro hc; simpa [stepSys] using hwl hc
  | submitReceipt user file now =>
    have hw : claimOrDeclineWins s (Ev.submitReceipt user file now) = false := rfl
    rw [hw, Bool.or_false]
    cases hk : s.upload_key with
    | none =>
      refine ⟨⟨o, ?_, hex⟩, ?_⟩
      · simp [stepSys, hdb, handle_payment_receipt_submission, hk]
      · intro hc; simpa [stepSys, hdb, handle_payment_receipt_submission, hk] using hwl hc
    | some oid =>
      by_cases h0 : oid = 0
      · refine ⟨⟨o, ?_, hex⟩, ?_⟩
        · simp [stepSys, hdb, handle_payment_receipt_submission, hk, h0]
        · intro hc
          simpa [stepSys, hdb, handle_payment_receipt_submission, hk, h0] using hwl hc
      · cases file with
        | none =>
          refine ⟨⟨o, ?_, hex⟩, ?_⟩
          · simp [stepSys, hdb, handle_payment_receipt_submission, hk, h0]
          · intro hc
            simpa [stepSys, hdb, handle_payment_receipt_submission, hk, h0] using hwl hc
        | some pr =>
          obtain ⟨fid, ftype⟩ := pr
          by_cases hid2 : o.order_id = oid
          · have hg : get_order [o] oid = some o := by rw [get_order_singleton, if_pos hid2]
            by_cases huid : o.user_id = user
            · refine ⟨⟨{ o with
                  status := "payment_review"
                  payment_status := some "submitted"
                  payment_receipt_file_id := some fid
                  payment_receipt_type := some ftype
                  payment_submitted_at := some now }, ?_, ?_⟩, ?_⟩
              · simp [stepSys, hdb, handle_payment_receipt_submission, hk, h0, hg, huid,
                  submit_writes_singleton o oid fid ftype user now hid2 huid]
              · simpa using hex
              · intro hc
                simpa [stepSys, hdb, handle_payment_receipt_submission, hk, h0, hg, huid]
                  using hwl hc
            · refine ⟨⟨o, ?_, hex⟩, ?_⟩
              · simp [stepSys, hdb, handle_payment_receipt_submission, hk, h0, hg, huid]
              · intro hc
                simpa [stepSys, hdb, handle_payment_receipt_submission, hk, h0, hg, huid]
                  using hwl hc
          · have hg : get_order [o] oid = none := by rw [get_order_singleton, if_neg hid2]
            refine ⟨⟨o, ?_, hex⟩, ?_⟩
            · simp [stepSys, hdb, handle_payment_receipt_submission, hk, h0, hg]
            · intro hc
              simpa [stepSys, hdb, handle_payment_receipt_submission, hk, h0, hg] using hwl hc
  | review oid approve reviewer adm now =>
    have hw : claimOrDeclineWins s (Ev.review oid approve reviewer adm now) = false := rfl
    rw [hw, Bool.or_false]
    cases adm with
    | false =>
      refine ⟨⟨o, ?_, hex⟩, ?_⟩
      · simp [stepSys, hdb, handle_payment_review_callback]
      · intro hc; simpa [stepSys, hdb, handle_payment_review_callback] using hwl hc
    | true =>
      by_cases hid2 : o.order_id = oid
      · have hg : get_order [o] oid = some o := by rw [get_order_singleton, if_pos hid2]
        cases approve with
        | true =>
          refine ⟨⟨{ o with
              status := "in_progress"
              payment_status := some "confirmed"
              payment_reviewed_by := some reviewer
              payment_reviewed_at := some now }, ?_, ?_⟩, ?_⟩
          · simp [stepSys, hdb, handle_payment_review_callback, hg,
              approve_writes_singleton o oid reviewer now hid2]
          · simpa using hex
          · intro hc
            simpa [stepSys, hdb, handle_payment_review_callback, hg] using hwl hc
        | false =>
          refine ⟨⟨{ o with
              status := "awaiting_payment"
              payment_status := some "rejected"
              payment_reviewed_by := some reviewer
              payment_reviewed_at := some now }, ?_, ?_⟩, ?_⟩
          · simp [stepSys, hdb, handle_payment_review_callback, hg,
              reject_writes_singleton o oid reviewer now hid2]
          · simpa using hex
          · intro hc
            simpa [stepSys, hdb, handle_payment_review_callback, hg] using hwl hc
      · have hg : get_order [o] oid = none := by rw [get_order_singleton, if_neg hid2]
        refine ⟨⟨o, ?_, hex⟩, ?_⟩
        · simp [stepSys, hdb, handle_payment_review_callback, hg]
        · intro hc; simpa [stepSys, hdb, handle_payment_review_callback, hg] using hwl hc
  | adminComplete oid adm now =>
    have hw : claimOrDeclineWins s (Ev.adminComplete oid adm now) = false := rfl
    rw [hw, Bool.or_false]
    cases adm with
    | false =>
      refine ⟨⟨o, ?_, hex⟩, ?_⟩
      · simp [stepSys, hdb, handle_admin_complete]
      · intro hc; simpa [stepSys, hdb, handle_admin_complete] using hwl hc
    | true =>
      by_cases hid2 : o.order_id = oid
      · have hg : get_order [o] oid = some o := by rw [get_order_singleton, if_pos hid2]
        refine ⟨⟨{ o with status := "completed", completed_at := some now }, ?_, ?_⟩, ?_⟩
        · simp [stepSys, hdb, handle_admin_complete, hg,
            complete_write_singleton o oid now hid2]
        · simpa using hex
        · intro hc; simpa [stepSys, hdb, handle_admin_complete, hg] using hwl hc
      · have hg : get_order [o] oid = none := by rw [get_order_singleton, if_neg hid2]
        refine ⟨⟨o, ?_, hex⟩, ?_⟩
        · simp [stepSys, hdb, handle_admin_complete, hg]
        · intro hc; simpa [stepSys, hdb, handle_admin_complete, hg] using hwl hc

/-- The invariant holds along every run. -/
theorem sysInv_runFlag (evs : List Ev) : ∀ (s : Sys) (f : Bool), SysInv s f →
    SysInv (runFlag (s, f) evs).1 (runFlag (s, f) evs).2 := by
  induction evs with
  | nil => intro s f h; exact h
  | cons e evs ih =>
    intro s f h
    simpa [runFlag] using ih _ _ (sysInv_step s f e h)

/-- C8 counterexample.  Two reachable states violate "executor is set iff
status ∉ {pending, declined}": (a) after a decline with reason the order is
`declined` yet the provisional decliner is still recorded as executor
(`update_order_status` coalesces and `reset_order_executor` is never called
anywhere in the repository); (b) an admin can complete a still-pending order
(pending orders are listed with complete buttons and the branch has no
guard), giving `completed` with no executor. -/
theorem C8_status_iff_counterexample :
    (get_order declinedTrace.db 1).map (fun o => (o.status, o.executor_id)) =
      some ("declined", some 201) ∧
    (get_order completedFromPending.db 1).map (fun o => (o.status, o.executor_id)) =
      some ("completed", none) := by
  decide

/-- C8 (amended): for every order created by the intake and every sequence
of lifecycle events (claim, decline, reason reply, upload request, receipt
submission, payment review, admin completion), the executor is recorded on
the order exactly when some claim or decline attempt has succeeded along the
run.  (The claimed status-based characterisation fails — see the
counterexample — because declining keeps the decliner recorded and a
pending order can be completed directly.) -/
theorem C8_executor_set_iff_claimed_or_declined
    (oid : Nat) (uid : Int) (un fn ln : Option String) (ot sub de : String)
    (fi ft ai dl : Option String) (bu : String) (evs : List Ev) :
    ∀ o ∈ (runFlag (initSys (newOrder oid uid un fn ln ot sub de fi ft ai dl bu), false) evs).1.db,
      o.executor_id.isSome =
        (runFlag (initSys (newOrder oid uid un fn ln ot sub de fi ft ai dl bu), false) evs).2 := by
  intro o ho
  have hinv : SysInv (initSys (newOrder oid uid un fn ln ot sub de fi ft ai dl bu)) false :=
    ⟨⟨newOrder oid uid un fn ln ot sub de fi ft ai dl bu, rfl, rfl⟩, fun _ => rfl⟩
  obtain ⟨⟨o', hdb, hex⟩, -⟩ :=
    sysInv_runFlag evs (initSys (newOrder oid uid un fn ln ot sub de fi ft ai dl bu)) false hinv
  rw [hdb] at ho
  simp only [List.mem_singleton] at ho
  rw [ho]
  exact hex

/-- Witness for `C8_executor_set_iff_claimed_or_declined`: the freshly
created sample order, before any event, has no executor and the flag is
false. -/
theorem C8_executor_set_iff_claimed_or_declined_witness :
    (newOrder 1 100 (some "student") (some "Иван") none "Домашнее задание"
        "Математика" "Решить задачи" none none (some "нет") (some "нет")
        "1200").executor_id.isSome =
      (runFlag (initSys (newOrder 1 100 (some "student") (some "Иван") none
        "Домашнее задание" "Математика" "Решить задачи" none none (some "нет")
        (some "нет") "1200"), false) []).2 :=
  C8_executor_set_iff_claimed_or_declined 1 100 (some "student") (some "Иван") none
    "Домашнее задание" "Математика" "Решить задачи" none none (some "нет") (some "нет")
    "1200" []
    (newOrder 1 100 (some "student") (some "Иван") none "Домашнее задание"
      "Математика" "Решить задачи" none none (some "нет") (some "нет") "1200")
    (by simp [runFlag, initSys])
